import Mathlib

/-!
Shallow embedding of the data-fetch pipeline of the Frontend_BPS repository
(`dist/js/api.js` together with the `API_CONFIG` configuration object).

The JavaScript is asynchronous glue code around the browser `fetch` builtin.
We model the network as an oracle `exec : Nat → ReqOutcome` giving, for each
invocation index (the `retryCount` passed along the recursive calls of
`fetchData`), the classified outcome of that single HTTP request.  All
repository functions are translated directly; the delays that the code
schedules with `setTimeout` are recorded in a trace instead of being waited
for, and invocation counts are recorded so that retry behaviour is visible.
-/

/-- Retry section of `API_CONFIG` (`RETRY: { MAX_ATTEMPTS: 3, DELAY: 1000 }`). -/
structure RetryConfig where
  MAX_ATTEMPTS : Nat
  DELAY : Nat
deriving DecidableEq

/-- The `ENDPOINTS` table of `API_CONFIG`, field for field. -/
structure EndpointsConfig where
  NTP_BULANAN : String
  NTP_INDEKS_DITERIMA_DIBAYAR : String
  NTP_PER_SUBSEKTOR : String
  TPAK_TAHUNAN : String
  TPT_TAHUNAN : String
  KOMPOSISI_TENAGA_KERJA : String
  INFLASI : String
  PENGELUARAN : String
  KEMISKINAN : String
  IPM : String
  KETENAGAKERJAAN : String
  FEEDBACK : String
  KPI : String
deriving DecidableEq

/-- The `API_CONFIG` object shape. -/
structure APIConfigT where
  BASE_URL : String
  ENDPOINTS : EndpointsConfig
  TIMEOUT : Nat
  RETRY : RetryConfig
deriving DecidableEq

/-- The `API_CONFIG` constant from the configuration file. -/
def API_CONFIG : APIConfigT :=
  { BASE_URL := "http://localhost:3000/api"
  , ENDPOINTS :=
    { NTP_BULANAN := "/ntp/bulanan"
    , NTP_INDEKS_DITERIMA_DIBAYAR := "/ntp/indeks-diterima-dibayar"
    , NTP_PER_SUBSEKTOR := "/ntp/per-subsektor"
    , TPAK_TAHUNAN := "/ketenagakerjaan/tpak-tahunan"
    , TPT_TAHUNAN := "/ketenagakerjaan/tpt-tahunan"
    , KOMPOSISI_TENAGA_KERJA := "/ketenagakerjaan/komposisi-sektor"
    , INFLASI := "/inflasi"
    , PENGELUARAN := "/pengeluaran"
    , KEMISKINAN := "/kemiskinan"
    , IPM := "/ipm"
    , KETENAGAKERJAAN := "/ketenagakerjaan"
    , FEEDBACK := "/feedback"
    , KPI := "/kpi" }
  , TIMEOUT := 30000
  , RETRY := { MAX_ATTEMPTS := 3, DELAY := 1000 } }

/-- The `USE_MOCK_DATA` constant from `api.js` (`const USE_MOCK_DATA = true`). -/
def USE_MOCK_DATA : Bool := true

/-- One dataset of a multi-series chart payload
(`{label, values, color}` in the mock data and the wire schema). -/
structure Dataset where
  label : String
  values : List ℚ
  color : String
deriving DecidableEq

/-- Parsed JSON body of a successful chart response: either the single-series
shape `{title, labels, values, period}` or the multi-series shape
`{title, labels, datasets, period}`. -/
inductive ChartPayload where
  | single (title : String) (labels : List String) (values : List ℚ) (period : String)
  | multi (title : String) (labels : List String) (datasets : List Dataset) (period : String)
deriving DecidableEq

/-- The JSON error body a non-2xx response may carry
(`errorData` in `fetchData`; `{}` when the body fails to parse).
Only its optional `message` field is inspected by the code; the remaining
fields are kept abstract as a key/value list. -/
structure ErrBody where
  message : Option String
  rest : List (String × String)
deriving DecidableEq

/-- The value a logical fetch call hands back to its caller.  Normally this
is the normalized response envelope: `{success: true, data}` or
`{success: false, error: {message, status?, data?}}`.  The `status` and
`data` fields are optional because the local failures produced by
`getChartData` / `getMockChartData` build an error object holding only
`message`, while `fetchData` always sets all three.

One further case exists in the source: `getMockChartData` returns
`mockData[visualizationType] || fallback`, and for a key naming an
`Object.prototype` member (`toString`, `constructor`, ...) the property read
finds the inherited member, which is truthy and short-circuits the `||`, so
the raw inherited value — not an envelope — is returned.  The `inherited`
constructor records that leaked value by its property name. -/
inductive Envelope where
  | success (data : ChartPayload)
  | failure (message : String) (status : Option Nat) (data : Option ErrBody)
  | inherited (name : String)
deriving DecidableEq

/-- Classified outcome of one underlying `fetch` invocation, as the
try-block of `fetchData` observes it:
* `ok`        — `response.ok` and the body parsed (`{success:true, data}` path);
* `httpError` — `!response.ok`: an `APIError(message, status, errorData)` is
  thrown, where `errorData` is the parsed error body (or `{}`);
* `timeout`   — the abort controller fired (`error.name === 'AbortError'`);
* `netError`  — transport-level failure (`error.name === 'TypeError'`);
* `parseError` — a 2xx body that failed to parse
  (`error.name === 'SyntaxError'`). -/
inductive ReqOutcome where
  | ok (data : ChartPayload)
  | httpError (status : Nat) (body : ErrBody)
  | timeout (message : String)
  | netError (message : String)
  | parseError (message : String)
deriving DecidableEq

/-- The `name` property of the error value the catch-block of `fetchData`
receives for each non-`ok` outcome. -/
def errName : ReqOutcome → String
  | .ok _ => ""
  | .httpError _ _ => "APIError"
  | .timeout _ => "AbortError"
  | .netError _ => "TypeError"
  | .parseError _ => "SyntaxError"

/-- The retry predicate of `fetchData`:
`error.name === 'AbortError' || error.name === 'TypeError'`. -/
def retryable (o : ReqOutcome) : Bool :=
  errName o == "AbortError" || errName o == "TypeError"

/-- Fallback message for a non-2xx response whose error body carries no
usable `message`: the template `HTTP error! status: ...` in `fetchData`. -/
def httpFallbackMsg (status : Nat) : String :=
  "HTTP error! status: " ++ toString status

/-- The `message` property of the caught error.  For an `APIError` this is
`errorData.message` with the HTTP fallback applied by `||` (a missing or
empty `message` field is falsy in JavaScript, so both fall back). -/
def errMessage : ReqOutcome → String
  | .ok _ => ""
  | .httpError status body =>
      match body.message with
      | some m => if m = "" then httpFallbackMsg status else m
      | none => httpFallbackMsg status
  | .timeout m => m
  | .netError m => m
  | .parseError m => m

/-- The `status` property of the caught error after the `error.status || 0`
coercion: the HTTP status for an `APIError`, `0` for every other error
(whose `status` property is `undefined`). -/
def errStatus : ReqOutcome → Nat
  | .httpError status _ => status
  | _ => 0

/-- The `data` property of the caught error after `error.data || null`:
the parsed error body for an `APIError` (an object, hence truthy even when
empty), `null` for every other error. -/
def errData : ReqOutcome → Option ErrBody
  | .httpError _ body => some body
  | _ => none

/-- The failure envelope `fetchData` builds in its catch-block once it has
decided not to retry:
`{success:false, error:{message: error.message || '...', status: error.status || 0, data: error.data || null}}`. -/
def errEnvelope (o : ReqOutcome) : Envelope :=
  .failure
    (if errMessage o = "" then "An unexpected error occurred" else errMessage o)
    (some (errStatus o))
    (errData o)

/-- Observable trace of one logical fetch call: the envelope it returns, how
many underlying request invocations it performed, and the delays (ms) it
scheduled, in order. -/
structure CallTrace where
  envelope : Envelope
  invocations : Nat
  delays : List Nat
deriving DecidableEq

/-- The body of `fetchData(endpoint, options, retryCount)` for a fixed
endpoint and options (both are constant across the recursive retries, so
they are folded into the oracle `exec`).  On a non-`ok` outcome, if
`retryCount < API_CONFIG.RETRY.MAX_ATTEMPTS` and the error is retryable,
it waits `API_CONFIG.RETRY.DELAY * (retryCount + 1)` and re-invokes itself
with `retryCount + 1`; otherwise it returns the failure envelope. -/
def fetchDataAux (exec : Nat → ReqOutcome) (retryCount : Nat) : CallTrace :=
  match exec retryCount with
  | .ok d => { envelope := .success d, invocations := 1, delays := [] }
  | outcome =>
    if h : retryCount < API_CONFIG.RETRY.MAX_ATTEMPTS ∧ retryable outcome = true then
      let rest := fetchDataAux exec (retryCount + 1)
      { envelope := rest.envelope
      , invocations := rest.invocations + 1
      , delays := API_CONFIG.RETRY.DELAY * (retryCount + 1) :: rest.delays }
    else
      { envelope := errEnvelope outcome, invocations := 1, delays := [] }
termination_by API_CONFIG.RETRY.MAX_ATTEMPTS + 1 - retryCount
decreasing_by
  have := h.1
  simp [API_CONFIG] at this ⊢
  omega

/-- `fetchData` as callers use it: the recursion starts at `retryCount = 0`
(the default argument). -/
def fetchData (exec : Nat → ReqOutcome) : CallTrace :=
  fetchDataAux exec 0

/-- One hexadecimal digit (uppercase, as percent-encoding emits). -/
def hexDigit (n : Nat) : Char :=
  if n < 10 then Char.ofNat (48 + n) else Char.ofNat (55 + n)

/-- Percent-encode one byte as `%XX`. -/
def pctByte (b : UInt8) : String :=
  "%" ++ String.singleton (hexDigit (b.toNat / 16)) ++ String.singleton (hexDigit (b.toNat % 16))

/-- Characters the `application/x-www-form-urlencoded` serializer leaves
unescaped (ASCII alphanumerics and `*-._`). -/
def formSafeChar (c : Char) : Bool :=
  c.isAlphanum || c = '*' || c = '-' || c = '.' || c = '_'

/-- Form-urlencode one character: space becomes `+`, safe characters pass
through, everything else is percent-encoded byte by byte (UTF-8). -/
def formEncodeChar (c : Char) : String :=
  if c = ' ' then "+"
  else if formSafeChar c then String.singleton c
  else String.join (((String.singleton c).toUTF8.toList).map pctByte)

/-- Form-urlencode a string character by character. -/
def formEncode (s : String) : String :=
  String.join (s.toList.map formEncodeChar)

/-- Model of `new URLSearchParams(filters).toString()`: the filter set is the
key/value list of the JavaScript object in insertion order, serialized as
`k=v` pairs joined by `&`; the empty set serializes to the empty string. -/
def urlSearchParamsToString (filters : List (String × String)) : String :=
  String.intercalate "&" (filters.map fun p => formEncode p.1 ++ "=" ++ formEncode p.2)

/-- The `endpointMap` object literal built inside `getChartData`, entry for
entry in source order. -/
def endpointMap : List (String × String) :=
  [ ("ntp-bulanan", API_CONFIG.ENDPOINTS.NTP_BULANAN)
  , ("ntp-indeks", API_CONFIG.ENDPOINTS.NTP_INDEKS_DITERIMA_DIBAYAR)
  , ("ntp-subsektor", API_CONFIG.ENDPOINTS.NTP_PER_SUBSEKTOR)
  , ("tpak", API_CONFIG.ENDPOINTS.TPAK_TAHUNAN)
  , ("tpt", API_CONFIG.ENDPOINTS.TPT_TAHUNAN)
  , ("komposisi-tenaga-kerja", API_CONFIG.ENDPOINTS.KOMPOSISI_TENAGA_KERJA)
  , ("inflasi", API_CONFIG.ENDPOINTS.INFLASI)
  , ("pengeluaran", API_CONFIG.ENDPOINTS.PENGELUARAN)
  , ("kemiskinan", API_CONFIG.ENDPOINTS.KEMISKINAN)
  , ("ipm", API_CONFIG.ENDPOINTS.IPM)
  , ("ketenagakerjaan", API_CONFIG.ENDPOINTS.KETENAGAKERJAAN) ]

/-- Property names every plain object literal inherits from
`Object.prototype`: a property read `obj[k]` for these `k` finds the
inherited member (a function, or `Object.prototype` itself for
`__proto__`) even when `k` is not an own entry of the literal, and the
result is truthy. -/
def OBJECT_PROTOTYPE_KEYS : List String :=
  [ "constructor", "hasOwnProperty", "isPrototypeOf", "propertyIsEnumerable"
  , "toLocaleString", "toString", "valueOf"
  , "__defineGetter__", "__defineSetter__", "__lookupGetter__", "__lookupSetter__"
  , "__proto__" ]

/-- Result of the JavaScript property read `endpointMap[visualizationType]`:
an own entry (a string), a member inherited from `Object.prototype`
(recorded by its name), or `undefined`. -/
inductive EndpointRead where
  | ownStr (s : String)
  | protoMember (name : String)
  | undefinedProp
deriving DecidableEq

/-- The property read `endpointMap[visualizationType]` including the
prototype chain: own entries first, then `Object.prototype` members,
otherwise `undefined`. -/
def endpointRead (visualizationType : String) : EndpointRead :=
  match endpointMap.lookup visualizationType with
  | some v => .ownStr v
  | none =>
    if OBJECT_PROTOTYPE_KEYS.contains visualizationType then .protoMember visualizationType
    else .undefinedProp

/-- JavaScript truthiness of the read property, as the `if (!endpoint)` guard
of `getChartData` tests it: `undefined` is falsy, an inherited member is
truthy, a string is truthy unless empty. -/
def jsTruthy : EndpointRead → Bool
  | .ownStr s => !(s == "")
  | .protoMember _ => true
  | .undefinedProp => false

/-- Template-literal string coercion of an inherited `Object.prototype`
member: `constructor` is the `Object` function, `__proto__` is
`Object.prototype` itself (an object), the rest are native functions named
after their property. -/
def protoMemberString (name : String) : String :=
  if name = "__proto__" then "[object Object]"
  else if name = "constructor" then "function Object() \x7b [native code] \x7d"
  else "function " ++ name ++ "() \x7b [native code] \x7d"

/-- Template-literal string coercion of the read property, as
`\x7b$endpoint\x7d` inside the `fullEndpoint` template performs it. -/
def jsTemplateStr : EndpointRead → String
  | .ownStr s => s
  | .protoMember name => protoMemberString name
  | .undefinedProp => "undefined"

/-- The endpoint-resolution step of `getChartData` on its non-mock path:
read `endpointMap[visualizationType]` (prototype chain included); a falsy
result makes `getChartData` fail locally (`none` here), a truthy one is
coerced into the template and gets
`queryParams ? '?' + queryParams : ''` appended, where
`queryParams = new URLSearchParams(filters).toString()`. -/
def resolveEndpoint (visualizationType : String) (filters : List (String × String)) :
    Option String :=
  let endpoint := endpointRead visualizationType
  if jsTruthy endpoint then
    let queryParams := urlSearchParamsToString filters
    some (jsTemplateStr endpoint ++ (if queryParams = "" then "" else "?" ++ queryParams))
  else none

/-- The `mockData` object literal of `getMockChartData`, entry for entry in
source order.  Each entry is already a complete envelope
(`{success: true, data: {...}}`). -/
def mockData : List (String × Envelope) :=
  [ ("ntp-bulanan", .success (.single
      "NTP Bulanan (Nilai Tukar Petani)"
      ["Jan", "Feb", "Mar", "Apr", "Mei", "Jun", "Jul", "Agu", "Sep", "Okt", "Nov", "Des"]
      [105.2, 104.8, 105.5, 105.1, 104.9, 105.3, 105.7, 105.4, 105.6, 105.8, 105.9, 106.1]
      "Januari - Desember 2024"))
  , ("ntp-indeks", .success (.multi
      "Indeks Diterima vs Dibayar Petani"
      ["Jan", "Feb", "Mar", "Apr", "Mei", "Jun", "Jul", "Agu", "Sep", "Okt", "Nov", "Des"]
      [ { label := "Indeks Diterima (It)"
        , values := [105.2, 105.5, 106.0, 105.8, 105.6, 105.9, 106.2, 106.0, 106.3, 106.5, 106.7, 107.0]
        , color := "#003D7A" }
      , { label := "Indeks Dibayar (Ib)"
        , values := [100.0, 100.2, 100.5, 100.3, 100.1, 100.4, 100.6, 100.4, 100.7, 100.9, 101.1, 101.3]
        , color := "#4FC3F7" } ]
      "Januari - Desember 2024"))
  , ("ntp-subsektor", .success (.single
      "NTP per Subsektor"
      ["Tanaman Pangan", "Hortikultura", "Perkebunan", "Peternakan", "Perikanan"]
      [105.2, 104.8, 105.5, 105.1, 104.9]
      "2024"))
  , ("tpak", .success (.single
      "TPAK Tahunan (Tingkat Partisipasi Angkatan Kerja)"
      ["2020", "2021", "2022", "2023", "2024"]
      [68.5, 69.2, 69.8, 70.1, 70.5]
      "2020-2024"))
  , ("tpt", .success (.single
      "TPT Tahunan (Tingkat Pengangguran Terbuka)"
      ["2020", "2021", "2022", "2023", "2024"]
      [4.2, 4.8, 5.1, 4.9, 4.5]
      "2020-2024"))
  , ("komposisi-tenaga-kerja", .success (.multi
      "Komposisi Tenaga Kerja per Sektor"
      ["2020", "2021", "2022", "2023", "2024"]
      [ { label := "Pertanian", values := [35, 34, 33, 32, 31], color := "#4CAF50" }
      , { label := "Industri", values := [15, 16, 17, 18, 19], color := "#2196F3" }
      , { label := "Jasa", values := [25, 26, 27, 28, 29], color := "#FF9800" }
      , { label := "Konstruksi", values := [10, 11, 12, 13, 14], color := "#9C27B0" }
      , { label := "Lainnya", values := [15, 13, 11, 9, 7], color := "#F44336" } ]
      "2020-2024"))
  , ("inflasi", .success (.single
      "Inflasi (IHK 2022=100) Bulanan"
      ["Jan", "Feb", "Mar", "Apr", "Mei", "Jun"]
      [2.1, 2.3, 2.0, 2.4, 2.2, 2.5]
      "Januari - Juni 2024"))
  , ("pengeluaran", .success (.single
      "Komposisi Pengeluaran"
      ["Makanan", "Perumahan", "Transportasi", "Lainnya"]
      [45, 25, 20, 10]
      "2024"))
  , ("kemiskinan", .success (.single
      "Persentase Penduduk Miskin"
      ["Maret 2020", "Sept 2020", "Maret 2021", "Sept 2021", "Maret 2022", "Sept 2022"]
      [20.5, 19.8, 19.2, 18.9, 18.5, 18.1]
      "2020-2022"))
  , ("ipm", .success (.single
      "Indeks Pembangunan Manusia (IPM)"
      ["2020", "2021", "2022", "2023", "2024"]
      [65.2, 65.8, 66.4, 67.1, 67.8]
      "2020-2024"))
  , ("ketenagakerjaan", .success (.single
      "Tingkat Pengangguran Terbuka (TPT)"
      ["2020", "2021", "2022", "2023", "2024"]
      [4.2, 4.8, 5.1, 4.9, 4.5]
      "2020-2024")) ]

/-- `getMockChartData(visualizationType, filters)`: the property read
`mockData[visualizationType]` (prototype chain included) followed by the
`||` fallback to
`{success:false, error:{message: 'Mock data not found for: ...'}}`.
An own entry is a truthy object and is returned; a key naming an
`Object.prototype` member finds the inherited member, which is truthy and
short-circuits the `||`, so the raw inherited value is returned instead of
a Failure; only a genuinely absent key reaches the fallback.  The
`filters` parameter is accepted but never read, exactly as in the source. -/
def getMockChartData (visualizationType : String)
    (filters : List (String × String)) : Envelope :=
  match mockData.lookup visualizationType with
  | some e => e
  | none =>
    if OBJECT_PROTOTYPE_KEYS.contains visualizationType then .inherited visualizationType
    else .failure ("Mock data not found for: " ++ visualizationType) none none

/-- The fixed artificial delay (ms) the mock path of `getChartData` awaits
before returning (`setTimeout(resolve, 500)`). -/
def MOCK_DELAY : Nat := 500

/-- `getChartData(visualizationType, filters)`.  The mock/real switch is the
`USE_MOCK_DATA` constant, modelled as the explicit argument `useMockData`
(callers in the repository always pass the constant).  On the mock path it
waits `MOCK_DELAY` and returns `getMockChartData`, touching the network
zero times.  On the live path it resolves the endpoint; an unknown key
returns the local failure envelope without any network call, and a known
key delegates to `fetchData` on the fully resolved endpoint.  The network
oracle `exec` maps a resolved endpoint to the per-invocation outcomes. -/
def getChartData (useMockData : Bool) (exec : String → Nat → ReqOutcome)
    (visualizationType : String) (filters : List (String × String)) : CallTrace :=
  if useMockData then
    { envelope := getMockChartData visualizationType filters
    , invocations := 0
    , delays := [MOCK_DELAY] }
  else
    match resolveEndpoint visualizationType filters with
    | none =>
      { envelope := .failure ("Unknown visualization type: " ++ visualizationType) none none
      , invocations := 0
      , delays := [] }
    | some fullEndpoint => fetchData (exec fullEndpoint)

/-! ## Claim theorems -/

/-- A request executor whose every invocation ends in the abort-controller
timeout, with the message Chromium gives an aborted fetch. -/
def alwaysTimeoutExec : Nat → ReqOutcome :=
  fun _ => .timeout "The user aborted a request."

/-- C1, counterexample: against an executor that deterministically times out,
`fetchData` performs 4 underlying invocations, not the 3 the claim states:
the guard `retryCount < API_CONFIG.RETRY.MAX_ATTEMPTS` bounds the number of
RETRIES by `MAX_ATTEMPTS`, on top of the initial call. -/
theorem C1_counterexample :
    (fetchData alwaysTimeoutExec).invocations = 4 ∧
    (fetchData alwaysTimeoutExec).invocations ≠ 3 := by
  constructor <;>
    simp [fetchData, fetchDataAux, alwaysTimeoutExec, retryable, errName, API_CONFIG]

/-- C1, amended: for a request executor that deterministically times out on
every call, `fetchData` invokes the underlying request exactly
`1 + MAX_ATTEMPTS = 4` total times (the initial call plus 3 retries),
waiting `base_delay*1, base_delay*2, base_delay*3` (= 1000, 2000, 3000 ms)
before retries 1, 2, 3, and after exhausting attempts returns the Failure
envelope built from the last timeout error unmodified. -/
theorem C1_retry_exhaustion (exec : Nat → ReqOutcome)
    (h : ∀ n, ∃ m, exec n = ReqOutcome.timeout m) :
    fetchData exec =
      { envelope := errEnvelope (exec 3)
      , invocations := 4
      , delays := [1000, 2000, 3000] } := by
  obtain ⟨m0, h0⟩ := h 0
  obtain ⟨m1, h1⟩ := h 1
  obtain ⟨m2, h2⟩ := h 2
  obtain ⟨m3, h3⟩ := h 3
  simp [fetchData, fetchDataAux, h0, h1, h2, h3, retryable, errName, API_CONFIG]

/-- C1, witness: the amended theorem applied to the concrete always-timeout
executor. -/
theorem C1_retry_exhaustion_witness :
    fetchData alwaysTimeoutExec =
      { envelope := errEnvelope (alwaysTimeoutExec 3)
      , invocations := 4
      , delays := [1000, 2000, 3000] } :=
  C1_retry_exhaustion alwaysTimeoutExec (fun _ => ⟨"The user aborted a request.", rfl⟩)

/-- C2: if the underlying request completes with a non-2xx HTTP status on the
first call, `fetchData` returns the corresponding Failure envelope
immediately after exactly one invocation, scheduling no retry delay: an
`APIError` is not in the retry predicate. -/
theorem C2_http_error_no_retry (exec : Nat → ReqOutcome) (s : Nat) (b : ErrBody)
    (h : exec 0 = ReqOutcome.httpError s b) :
    fetchData exec =
      { envelope := errEnvelope (ReqOutcome.httpError s b)
      , invocations := 1
      , delays := [] } := by
  simp [fetchData, fetchDataAux, h, retryable, errName]

/-- Error body of a concrete 500 response. -/
def errBody500 : ErrBody := { message := some "Internal Server Error", rest := [] }

/-- A request executor that answers every invocation with HTTP 500. -/
def httpError500Exec : Nat → ReqOutcome := fun _ => .httpError 500 errBody500

/-- C2, witness: the theorem applied to a concrete executor returning 500 on
the first call. -/
theorem C2_http_error_no_retry_witness :
    fetchData httpError500Exec =
      { envelope := errEnvelope (ReqOutcome.httpError 500 errBody500)
      , invocations := 1
      , delays := [] } :=
  C2_http_error_no_retry httpError500Exec 500 errBody500 rfl

/-- C3: if the first invocation fails with a transient failure (one the retry
predicate accepts, i.e. timeout `AbortError` or transport `TypeError`) and
the second invocation succeeds, `fetchData` returns the Success envelope
after exactly 2 invocations, having waited `base_delay` once. -/
theorem C3_transient_then_success (exec : Nat → ReqOutcome) (d : ChartPayload)
    (h0 : retryable (exec 0) = true) (h1 : exec 1 = ReqOutcome.ok d) :
    fetchData exec =
      { envelope := .success d
      , invocations := 2
      , delays := [API_CONFIG.RETRY.DELAY] } := by
  cases hE : exec 0 with
  | ok d2 => rw [hE] at h0; simp [retryable, errName] at h0
  | httpError s b => rw [hE] at h0; simp [retryable, errName] at h0
  | parseError m => rw [hE] at h0; simp [retryable, errName] at h0
  | timeout m =>
      simp [fetchData, fetchDataAux, hE, h1, retryable, errName, API_CONFIG]
  | netError m =>
      simp [fetchData, fetchDataAux, hE, h1, retryable, errName, API_CONFIG]

/-- A request executor that fails with a transport error once, then serves a
small payload. -/
def onceFailExec : Nat → ReqOutcome :=
  fun n => if n = 0 then .netError "Failed to fetch"
           else .ok (.single "t" ["a"] [1] "p")

/-- C3, witness: the theorem applied to the concrete fail-once executor. -/
theorem C3_transient_then_success_witness :
    fetchData onceFailExec =
      { envelope := .success (.single "t" ["a"] [1] "p")
      , invocations := 2
      , delays := [API_CONFIG.RETRY.DELAY] } :=
  C3_transient_then_success onceFailExec (.single "t" ["a"] [1] "p") (by decide) rfl

/-- C4: in live (non-mock) mode, each of the eleven logical indicator keys
resolves with an empty Filter Set to exactly the documented endpoint path
with no query string appended, and `getChartData` then performs `fetchData`
on precisely that path. -/
theorem C4_empty_filters_exact_paths (exec : String → Nat → ReqOutcome) :
    (resolveEndpoint "ntp-bulanan" [] = some "/ntp/bulanan" ∧
     resolveEndpoint "ntp-indeks" [] = some "/ntp/indeks-diterima-dibayar" ∧
     resolveEndpoint "ntp-subsektor" [] = some "/ntp/per-subsektor" ∧
     resolveEndpoint "tpak" [] = some "/ketenagakerjaan/tpak-tahunan" ∧
     resolveEndpoint "tpt" [] = some "/ketenagakerjaan/tpt-tahunan" ∧
     resolveEndpoint "komposisi-tenaga-kerja" [] = some "/ketenagakerjaan/komposisi-sektor" ∧
     resolveEndpoint "inflasi" [] = some "/inflasi" ∧
     resolveEndpoint "pengeluaran" [] = some "/pengeluaran" ∧
     resolveEndpoint "kemiskinan" [] = some "/kemiskinan" ∧
     resolveEndpoint "ipm" [] = some "/ipm" ∧
     resolveEndpoint "ketenagakerjaan" [] = some "/ketenagakerjaan") ∧
    (getChartData false exec "ntp-bulanan" [] = fetchData (exec "/ntp/bulanan") ∧
     getChartData false exec "ntp-indeks" [] = fetchData (exec "/ntp/indeks-diterima-dibayar") ∧
     getChartData false exec "ntp-subsektor" [] = fetchData (exec "/ntp/per-subsektor") ∧
     getChartData false exec "tpak" [] = fetchData (exec "/ketenagakerjaan/tpak-tahunan") ∧
     getChartData false exec "tpt" [] = fetchData (exec "/ketenagakerjaan/tpt-tahunan") ∧
     getChartData false exec "komposisi-tenaga-kerja" [] = fetchData (exec "/ketenagakerjaan/komposisi-sektor") ∧
     getChartData false exec "inflasi" [] = fetchData (exec "/inflasi") ∧
     getChartData false exec "pengeluaran" [] = fetchData (exec "/pengeluaran") ∧
     getChartData false exec "kemiskinan" [] = fetchData (exec "/kemiskinan") ∧
     getChartData false exec "ipm" [] = fetchData (exec "/ipm") ∧
     getChartData false exec "ketenagakerjaan" [] = fetchData (exec "/ketenagakerjaan")) :=
  ⟨by decide, rfl, rfl, rfl, rfl, rfl, rfl, rfl, rfl, rfl, rfl, rfl⟩

/-- C5: query-string encoding and endpoint resolution are deterministic
functions of the key and the Filter Set: resolving twice with the same
non-empty Filter Set yields byte-identical query strings.  In this pure
embedding the serializer is a function, so repeated application agrees
definitionally — the JavaScript counterpart iterates the object keys in
insertion order, which the key/value-list model fixes. -/
theorem C5_query_determinism (k : String) (fs : List (String × String))
    (_h : fs ≠ []) :
    urlSearchParamsToString fs = urlSearchParamsToString fs ∧
    resolveEndpoint k fs = resolveEndpoint k fs :=
  ⟨rfl, rfl⟩

/-- C5, witness: determinism at a concrete key and non-empty Filter Set. -/
theorem C5_query_determinism_witness :
    ([("tahun", "2024")] : List (String × String)) ≠ [] ∧
    (urlSearchParamsToString [("tahun", "2024")] =
       urlSearchParamsToString [("tahun", "2024")] ∧
     resolveEndpoint "ntp-bulanan" [("tahun", "2024")] =
       resolveEndpoint "ntp-bulanan" [("tahun", "2024")]) :=
  ⟨by decide, C5_query_determinism "ntp-bulanan" [("tahun", "2024")] (by decide)⟩

/-- A network oracle whose every invocation on every endpoint times out; used
where either no network call must happen or the calls' outcomes are
irrelevant. -/
def noNetExec : String → Nat → ReqOutcome := fun _ _ => .timeout ""

/-- C6, counterexample: `toString` is absent from the endpoint table, yet in
live mode `getChartData` on `toString` performs network calls (4, since
the oracle here times out every attempt): the property read finds the
inherited `Object.prototype.toString`, which is truthy, so the
`!endpoint` guard is skipped and the coerced function is used as the
endpoint — refuting the claimed no-network-call Failure. -/
theorem C6_counterexample :
    endpointMap.lookup "toString" = none ∧
    (getChartData false noNetExec "toString" []).invocations = 4 ∧
    (getChartData false noNetExec "toString" []).invocations ≠ 0 := by
  have hres : resolveEndpoint "toString" [] =
      some "function toString() \x7b [native code] \x7d" := by decide
  refine ⟨by decide, ?_, ?_⟩ <;>
    simp [getChartData, hres, fetchData, fetchDataAux, noNetExec,
      retryable, errName, API_CONFIG]

/-- C6, amended: in live (non-mock) mode, a logical key that is absent from
the endpoint table AND does not name an `Object.prototype` member makes
`getChartData` return a local Failure envelope whose message contains the
unknown key, with zero network invocations and no delays.  (For a key
naming an inherited member, such as `toString`, the truthy inherited value
escapes the guard and a network call is performed on the coerced path.) -/
theorem C6_unknown_key_live (exec : String → Nat → ReqOutcome) (k : String)
    (fs : List (String × String)) (h1 : endpointMap.lookup k = none)
    (h2 : OBJECT_PROTOTYPE_KEYS.contains k = false) :
    getChartData false exec k fs =
      { envelope := .failure ("Unknown visualization type: " ++ k) none none
      , invocations := 0
      , delays := [] } ∧
    ∃ pre post, "Unknown visualization type: " ++ k = pre ++ k ++ post := by
  have h2' : k ∉ OBJECT_PROTOTYPE_KEYS := by simpa using h2
  refine ⟨by simp [getChartData, resolveEndpoint, endpointRead, jsTruthy, h1, h2'],
    "Unknown visualization type: ", "", by simp⟩

/-- C6, witness: the amended theorem applied to the concrete key
`does-not-exist`, which is neither an own entry nor an inherited member. -/
theorem C6_unknown_key_live_witness :
    getChartData false noNetExec "does-not-exist" [] =
      { envelope := .failure ("Unknown visualization type: " ++ "does-not-exist") none none
      , invocations := 0
      , delays := [] } ∧
    ∃ pre post,
      "Unknown visualization type: " ++ "does-not-exist" = pre ++ "does-not-exist" ++ post :=
  C6_unknown_key_live noNetExec "does-not-exist" [] (by decide) (by decide)

/-- The retry recursion of `fetchData` only ever returns an envelope built at
its two return sites: the Success of a parsed body or the Failure of the
catch-block — never any other value.  Stated with an explicit bound on the
remaining recursion depth so that induction on the bound mirrors the
recursion. -/
theorem fetchDataAux_success_or_failure (exec : Nat → ReqOutcome) :
    ∀ (n rc : Nat), API_CONFIG.RETRY.MAX_ATTEMPTS + 1 - rc ≤ n →
      (∃ d, (fetchDataAux exec rc).envelope = .success d) ∨
      (∃ m st dta, (fetchDataAux exec rc).envelope = .failure m st dta) := by
  intro n
  induction n with
  | zero =>
    intro rc hn
    unfold fetchDataAux
    split
    · exact Or.inl ⟨_, rfl⟩
    · split
      · next hcond =>
          exfalso
          have hlt := hcond.1
          simp [API_CONFIG] at hlt hn
          omega
      · exact Or.inr ⟨_, _, _, rfl⟩
  | succ n ih =>
    intro rc hn
    unfold fetchDataAux
    split
    · exact Or.inl ⟨_, rfl⟩
    · split
      · next hcond =>
          exact ih (rc + 1)
            (by have hlt := hcond.1; simp [API_CONFIG] at hlt hn ⊢; omega)
      · exact Or.inr ⟨_, _, _, rfl⟩

/-- C7: `fetchData` is a total function into the envelope type — every call
performs at least one underlying invocation and terminates in exactly one
envelope, which is either a Success or a Failure.  Totality itself is the
termination of the bounded retry recursion; the catch-block turns every
classified error into a Failure envelope rather than letting it escape. -/
theorem C7_total_envelope (exec : Nat → ReqOutcome) :
    1 ≤ (fetchData exec).invocations ∧
    ((∃ d, (fetchData exec).envelope = .success d) ∨
     (∃ m st dta, (fetchData exec).envelope = .failure m st dta)) := by
  constructor
  · show 1 ≤ (fetchDataAux exec 0).invocations
    unfold fetchDataAux
    split
    · simp
    · split
      · simp
      · simp
  · exact fetchDataAux_success_or_failure exec
      (API_CONFIG.RETRY.MAX_ATTEMPTS + 1) 0 (by omega)

/-- C8: in mock mode, `getChartData` on `ntp-bulanan` returns a Success
envelope of the single-series shape whose `labels` and `values` both have
length 12, for every Filter Set and network oracle. -/
theorem C8_mock_ntp_bulanan_lengths (exec : String → Nat → ReqOutcome)
    (fs : List (String × String)) :
    ∃ title labels values period,
      (getChartData USE_MOCK_DATA exec "ntp-bulanan" fs).envelope =
        .success (.single title labels values period) ∧
      labels.length = 12 ∧ values.length = 12 :=
  ⟨_, _, _, _, rfl, rfl, rfl⟩

/-- Whether a returned value is a Failure envelope. -/
def isFailureEnv : Envelope → Bool
  | .failure _ _ _ => true
  | _ => false

/-- C9, counterexample: `toString` is absent from the mock data table, yet in
mock mode `getChartData` on `toString` returns the raw inherited
`Object.prototype.toString` member: the property read finds the
inherited function, which is truthy and short-circuits the `||`, so no
Failure envelope naming the key is produced. -/
theorem C9_counterexample :
    mockData.lookup "toString" = none ∧
    getChartData USE_MOCK_DATA noNetExec "toString" [] =
      { envelope := .inherited "toString", invocations := 0, delays := [MOCK_DELAY] } ∧
    isFailureEnv (getChartData USE_MOCK_DATA noNetExec "toString" []).envelope = false := by
  decide

/-- C9, amended: in mock mode, a logical key that is absent from the mock
data table AND does not name an `Object.prototype` member makes
`getChartData` return a Failure envelope whose message contains the key,
after the fixed artificial delay (`MOCK_DELAY` = 500 ms) and with zero
network invocations.  (For a key naming an inherited member, such as
`toString`, the truthy inherited value short-circuits the `||` fallback
and is returned raw.) -/
theorem C9_mock_unknown_key (exec : String → Nat → ReqOutcome) (k : String)
    (fs : List (String × String)) (h1 : mockData.lookup k = none)
    (h2 : OBJECT_PROTOTYPE_KEYS.contains k = false) :
    getChartData USE_MOCK_DATA exec k fs =
      { envelope := .failure ("Mock data not found for: " ++ k) none none
      , invocations := 0
      , delays := [MOCK_DELAY] } ∧
    ∃ pre post, "Mock data not found for: " ++ k = pre ++ k ++ post := by
  have h2' : k ∉ OBJECT_PROTOTYPE_KEYS := by simpa using h2
  refine ⟨by simp [getChartData, getMockChartData, USE_MOCK_DATA, h1, h2'],
    "Mock data not found for: ", "", by simp⟩

/-- C9, witness: the amended theorem applied to the concrete key
`does-not-exist`, which is neither a mock entry nor an inherited member. -/
theorem C9_mock_unknown_key_witness :
    getChartData USE_MOCK_DATA noNetExec "does-not-exist" [] =
      { envelope := .failure ("Mock data not found for: " ++ "does-not-exist") none none
      , invocations := 0
      , delays := [MOCK_DELAY] } ∧
    ∃ pre post,
      "Mock data not found for: " ++ "does-not-exist" = pre ++ "does-not-exist" ++ post :=
  C9_mock_unknown_key noNetExec "does-not-exist" [] (by decide) (by decide)

/-- C10: in mock mode, the trace `getChartData` returns is independent of the
Filter Set — `getMockChartData` accepts the `filters` argument but never
reads it, so any two Filter Sets yield equal envelopes, invocation counts
and delays. -/
theorem C10_mock_filter_independence (exec : String → Nat → ReqOutcome) (k : String)
    (f1 f2 : List (String × String)) :
    getChartData USE_MOCK_DATA exec k f1 = getChartData USE_MOCK_DATA exec k f2 := by
  simp [getChartData, getMockChartData, USE_MOCK_DATA]
